import Mathlib

/-!
Verification of the laspy File facade (laspy/file.py) and, where the facade
delegates to the Reader/Writer engine of laspy/base.py (which is not part of
the sources at hand), of an engine model taken from the specification.
Python text is modelled as its sequence of ASCII byte values (List Nat);
machine integers do not overflow in any modelled path, so Nat and Int are
used directly; Python exceptions are modelled by an explicit error type and
Except or an error-and-state pair.
-/

namespace Laspy

/-- A point record: the raw bytes of one fixed-width record. -/
abbrev PointRecord := List Nat

/-- Python exception classes relevant to laspy.file.File. The constructor
laspyException is the domain-specific error family (util.LaspyException);
the other constructors are unrelated low-level Python errors. -/
inductive PyError where
  | laspyException (msg : String)
  | notImplementedError (msg : String)
  | attributeError (msg : String)
  | stopIteration (msg : String)
  deriving DecidableEq, Repr

/-- Whether an error belongs to the domain-specific laspy error family. -/
def PyError.isDomain : PyError → Bool
  | .laspyException _ => true
  | _ => false

/-- LAS header fields used by the modelled paths (laspy.header.Header). -/
structure Header where
  pointRecordsCount : Nat
  deriving DecidableEq, Repr

/-- One extra dimension declared in the extra-bytes schema of the file. Its
name is the stored byte string, which may contain NUL padding, spaces and
upper-case letters. -/
structure ExtraDim where
  name : List Nat
  deriving DecidableEq, Repr

/-- The byte values of an ASCII string literal. -/
def strBytes (s : String) : List Nat :=
  s.data.map Char.toNat

/-- ASCII lower-casing of one byte, as Python str.lower acts on the ASCII
text in play (extra-dimension names are ASCII per the container format). -/
def lowerByte (b : Nat) : Nat :=
  if 65 ≤ b ∧ b ≤ 90 then b + 32 else b

/-- Replacement of a space byte by an underscore byte, as the replace call
on line 74 of file.py performs character-wise. -/
def spaceToUnderscore (b : Nat) : Nat :=
  if b = 32 then 95 else b

/-- The dimension-name normalization of file.py line 74, character-wise over
ASCII bytes: name.decode(), then NUL bytes removed, then spaces replaced by
underscores, then lower-cased. -/
def normalizeDimName (name : List Nat) : List Nat :=
  ((name.filter (fun b => b != 0)).map spaceToUnderscore).map lowerByte

/-- Modelled from the spec: the Reader/Writer engine state (base.Writer, not
under src/). Per section 4.5 it owns the stream, the point records and a
sequential cursor; per sections 4.3 and 4.4 it owns the header, the extra
dimension schema and the dimension store. -/
structure FileManager where
  header : Header
  points : List PointRecord
  cursor : Nat
  layoutDims : List (List Nat)
  extraDimensions : List ExtraDim
  dimValues : List (List Nat × List Int)
  pointsWritten : Bool
  streamOpen : Bool
  deriving DecidableEq, Repr

/-- Modelled from the spec: close releases the stream (section 4.5). -/
def FileManager.close (fm : FileManager) : FileManager :=
  { fm with streamOpen := false }

/-- Modelled from the spec: the point count the engine reports (section 4.3
pointCount). -/
def FileManager.getPointrecordscount (fm : FileManager) : Nat :=
  fm.points.length

/-- Modelled from the spec: base.Writer.get_point (not under src/). Per
section 4.5, pointAt seeks to the requested record and returns its raw
bytes, leaving the sequential cursor after the returned record; past the
last record the engine yields its end marker (None, not an error). The
facade itself relies on this marker: the iterator in file.py guards the
result of get_point(0) with a truthiness test, and read returns the result
of get_point unconditionally once its bound check passes. -/
def FileManager.getPoint (fm : FileManager) (i : Nat) :
    Option PointRecord × FileManager :=
  if h : i < fm.points.length then
    (some (fm.points.get ⟨i, h⟩), { fm with cursor := i + 1 })
  else
    (none, fm)

/-- Modelled from the spec: base.Writer.get_next_point (section 4.5) — the
record at the sequential cursor, advancing it, with the None end marker at
end of stream. -/
def FileManager.getNextPoint (fm : FileManager) :
    Option PointRecord × FileManager :=
  FileManager.getPoint fm fm.cursor

/-- Modelled from the spec: the DimensionAccessor batch write path
(section 4.4) — the name resolves against the point-format layout and the
extra-dimension schema; an unresolved name fails with the
UnknownDimensionError kind of the domain family. -/
def FileManager.setDimension (fm : FileManager) (name : List Nat)
    (v : List Int) : Except PyError FileManager :=
  if name ∈ fm.layoutDims ∨ name ∈ fm.extraDimensions.map ExtraDim.name then
    Except.ok { fm with dimValues := (name, v) :: fm.dimValues }
  else
    Except.error (PyError.laspyException "Unknown dimension")

/-- Modelled from the spec: defineExtraDimension (section 4.4) — at the
engine it fails with the ModeError kind once any point record has been
written in the session, and otherwise appends the new dimension to the
schema. -/
def FileManager.defineNewDimension (fm : FileManager) (name : List Nat) :
    Except PyError FileManager :=
  if fm.pointsWritten then
    Except.error
      (PyError.laspyException "Dimensions cannot be defined after points are written")
  else
    Except.ok { fm with extraDimensions := fm.extraDimensions ++ [{ name := name }] }

/-- Modelled from the spec: the batch write of the X dimension
(base.Writer.set_x). -/
def FileManager.setX (fm : FileManager) (v : List Int) : FileManager :=
  { fm with dimValues := (strBytes "X", v) :: fm.dimValues }

/-- Modelled from the spec: base.Writer.set_points — replaces the point
records; afterwards the record length and schema are frozen. -/
def FileManager.setPoints (fm : FileManager) (ps : List PointRecord) :
    FileManager :=
  { fm with points := ps, pointsWritten := true }

/-- The File class dictionary: the set of names on which a property (a data
descriptor) has been installed by setattr on the class object. -/
structure ClassDict where
  props : List (List Nat)
  deriving DecidableEq, Repr

/-- The state of one laspy.file.File instance: its instance attributes. -/
structure FileState where
  filename : String
  mode : String
  fileManager : Option FileManager
  header : Option Header
  atEnd : Option Bool
  deriving DecidableEq, Repr

/-- laspy.file.File.add_property (file.py lines 84-92): setattr on
self.__class__ installs a property under the given name on the File class
itself, not on the instance. -/
def File.addProperty (cls : ClassDict) (name : List Nat) : ClassDict :=
  { props := name :: cls.props }

/-- laspy.file.File.add_extra_dimensions (file.py lines 71-75): installs a
class property under the normalized name of every extra dimension; the
guard on an empty list coincides with the empty loop. -/
def File.addExtraDimensions : ClassDict → List ExtraDim → ClassDict
  | cls, [] => cls
  | cls, d :: rest =>
      File.addExtraDimensions
        (File.addProperty cls (normalizeDimName d.name)) rest

/-- Names in a File instance its own __dict__: the attributes that __init__
assigns on self, plus at_end once __iter__ has run. -/
def File.instanceAttrs (st : FileState) : List (List Nat) :=
  [strBytes "filename", strBytes "_mode", strBytes "file_manager",
    strBytes "_header"]
    ++ (match st.atEnd with
        | some _ => [strBytes "at_end"]
        | none => [])

/-- Result of a successful Python attribute lookup on a File instance. -/
inductive AttrHit where
  | prop (name : List Nat)
  | instanceValue (name : List Nat)
  deriving DecidableEq, Repr

/-- Python attribute lookup on a File instance: a property installed on the
class is a data descriptor and takes precedence over the instance __dict__;
otherwise the instance __dict__ is consulted; otherwise the lookup raises
AttributeError. -/
def File.getattr (cls : ClassDict) (st : FileState) (name : List Nat) :
    Except PyError AttrHit :=
  if name ∈ cls.props then
    Except.ok (AttrHit.prop name)
  else if name ∈ File.instanceAttrs st then
    Except.ok (AttrHit.instanceValue name)
  else
    Except.error (PyError.attributeError "File object has no such attribute")

/-- Python str.lower on a mode string, character-wise over its characters,
as line 60 of file.py applies it. -/
def pyLower (s : String) : String :=
  String.mk (s.data.map Char.toLower)

/-- Modelled from the spec: base.FILE_MODES (not under src/) — the open-mode
strings the library accepts, per the constructor docstring and section 9 of
the spec: r, rw, w and w-plus. -/
def FILE_MODES : List String := ["r", "rw", "w", "w+"]

/-- laspy.file.File.__init__ (file.py lines 13-69). The mode is checked
against base.FILE_MODES; the error message of that check formats self._mode,
an attribute that has not been assigned yet, so the raise itself fails with
AttributeError. Mode w then raises NotImplementedError. For the remaining
modes the engine is opened, the header read, and a class property installed
for every extra dimension of the opened file. The engine state that opening
the named file yields is passed in as openedManager; os.path.abspath is
modelled as the identity; the header keyword is accepted and, on the
surviving paths, never used, exactly as in the source. -/
def File.init (cls : ClassDict) (filename : String) (mode : String)
    (header : Option Header) (openedManager : FileManager) :
    Except PyError (ClassDict × FileState) :=
  if mode ∉ FILE_MODES then
    Except.error (PyError.attributeError "File object has no attribute _mode")
  else if mode = "w" then
    Except.error (PyError.notImplementedError "lol")
  else
    Except.ok
      (File.addExtraDimensions cls openedManager.extraDimensions,
        { filename := filename, mode := pyLower mode,
          fileManager := some openedManager,
          header := some openedManager.header, atEnd := none })

/-- laspy.file.File.close (file.py lines 77-82): file_manager.close() is
called, then both file_manager and _header are set to None. When
file_manager is already None, the close attribute access on it fails with
AttributeError and the state is left as it was. The released engine object
is dropped together with the cleared reference. -/
def File.close (st : FileState) : Option PyError × FileState :=
  match st.fileManager with
  | none =>
      (some (PyError.attributeError "NoneType object has no attribute close"), st)
  | some _ =>
      (none, { st with fileManager := none, header := none })

/-- laspy.file.File.assert_write_mode (file.py lines 99-101). -/
def File.assertWriteMode (st : FileState) : Option PyError :=
  if st.mode = "r" then
    some (PyError.laspyException "File is not opened in a write mode.")
  else
    none

/-- laspy.file.File.read (file.py lines 150-155): when
get_pointrecordscount() is at least the index, the result of get_point —
the None end marker included — is returned as is; otherwise the domain
LaspyException is raised. The engine seek side effect of get_point is not
returned here; no verified statement observes it. -/
def File.read (st : FileState) (index : Nat) :
    Except PyError (Option PointRecord) :=
  match st.fileManager with
  | none =>
      Except.error
        (PyError.attributeError "NoneType object has no attribute get_pointrecordscount")
  | some fm =>
      if FileManager.getPointrecordscount fm ≥ index then
        Except.ok (FileManager.getPoint fm index).1
      else
        Except.error (PyError.laspyException "Index greater than point records count")

/-- laspy.file.File.__getitem__ on a single index (file.py lines 543-554):
delegates to read. -/
def File.getitem (st : FileState) (index : Nat) :
    Except PyError (Option PointRecord) :=
  File.read st index

/-- laspy.file.File.set_dimension (file.py lines 106-108): the write-mode
assertion runs first; only then is the engine invoked. -/
def File.setDimension (st : FileState) (name : List Nat) (v : List Int) :
    Option PyError × FileState :=
  match File.assertWriteMode st with
  | some e => (some e, st)
  | none =>
      match st.fileManager with
      | none =>
          (some (PyError.attributeError "NoneType object has no attribute set_dimension"), st)
      | some fm =>
          match FileManager.setDimension fm name v with
          | Except.ok fm1 => (none, { st with fileManager := some fm1 })
          | Except.error e => (some e, st)

/-- The setter of the X property (file.py lines 161-164): the write-mode
assertion runs first; only then is the engine invoked. Every dimension and
point setter in file.py has this same shape. -/
def File.setX (st : FileState) (v : List Int) : Option PyError × FileState :=
  match File.assertWriteMode st with
  | some e => (some e, st)
  | none =>
      match st.fileManager with
      | none =>
          (some (PyError.attributeError "NoneType object has no attribute set_x"), st)
      | some fm => (none, { st with fileManager := some (FileManager.setX fm v) })

/-- The setter of the points property (file.py lines 143-148). -/
def File.setPoints (st : FileState) (ps : List PointRecord) :
    Option PyError × FileState :=
  match File.assertWriteMode st with
  | some e => (some e, st)
  | none =>
      match st.fileManager with
      | none =>
          (some (PyError.attributeError "NoneType object has no attribute set_points"), st)
      | some fm =>
          (none, { st with fileManager := some (FileManager.setPoints fm ps) })

/-- laspy.file.File.define_new_dimension (file.py lines 94-97): the
write-mode assertion runs first, then the engine defines the dimension,
then add_property installs the accessor on the class under the given name. -/
def File.defineNewDimension (cls : ClassDict) (st : FileState)
    (name : List Nat) : Option PyError × ClassDict × FileState :=
  match File.assertWriteMode st with
  | some e => (some e, cls, st)
  | none =>
      match st.fileManager with
      | none =>
          (some (PyError.attributeError "NoneType object has no attribute define_new_dimension"),
            cls, st)
      | some fm =>
          match FileManager.defineNewDimension fm name with
          | Except.ok fm1 =>
              (none, File.addProperty cls name, { st with fileManager := some fm1 })
          | Except.error e => (some e, cls, st)

/-- The loop of laspy.file.File.__iter__ after the first yield: repeatedly
p = get_next_point(); while p is truthy it is yielded; a falsy p sets
at_end and ends the loop. The cursor-bound test below is exactly the
truthiness of the next get_next_point result; the theorem iterLoop_step
states this correspondence against FileManager.getNextPoint. -/
def File.iterLoop (fm : FileManager) : List PointRecord × FileManager :=
  if h : fm.cursor < fm.points.length then
    let rest := File.iterLoop { fm with cursor := fm.cursor + 1 }
    (fm.points.get ⟨fm.cursor, h⟩ :: rest.1, rest.2)
  else
    ([], fm)
termination_by fm.points.length - fm.cursor
decreasing_by
  show fm.points.length - (fm.cursor + 1) < fm.points.length - fm.cursor
  omega

/-- One run of laspy.file.File.__iter__ (file.py lines 520-541) to
exhaustion: in read mode, p = get_point(0) starts the loop; every truthy p
is yielded; when the loop ends without break the while-else clause calls
self.close(). The result is the list of yielded records and the final
state, or the error the generator raises. In a non-read mode the generator
raises StopIteration with a message. -/
def File.iterAll (st : FileState) :
    Except PyError (List PointRecord × FileState) :=
  if st.mode = "r" then
    match st.fileManager with
    | none =>
        Except.error (PyError.attributeError "NoneType object has no attribute get_point")
    | some fm =>
        match FileManager.getPoint fm 0 with
        | (some p, fm1) =>
            let rest := File.iterLoop fm1
            let closed := File.close
              { st with fileManager := some rest.2, atEnd := some true }
            match closed.1 with
            | some e => Except.error e
            | none => Except.ok (p :: rest.1, closed.2)
        | (none, fm1) =>
            let closed := File.close
              { st with fileManager := some fm1, atEnd := some false }
            match closed.1 with
            | some e => Except.error e
            | none => Except.ok ([], closed.2)
  else
    Except.error
      (PyError.stopIteration "Iteration only supported in read mode, try using FileObject.points")

/-- Modelled from the spec: the scaled-coordinate decode of the engine
accessor get_x(scale = True) (base.py, not under src/), in exact
arithmetic: scaled = raw * scale + offset. -/
def decodeScaled (r : ℤ) (s o : ℚ) : ℚ :=
  r * s + o

/-- Modelled from the spec: the raw-coordinate encode of the engine setter
set_x(scale = True) (base.py, not under src/), in exact arithmetic:
raw = round((scaled - offset) / scale). -/
def encodeScaled (v s o : ℚ) : ℤ :=
  round ((v - o) / s)

/-- A sample header for concrete evaluations. -/
def hdrSample : Header :=
  { pointRecordsCount := 2 }

/-- A sample opened engine holding two point records. -/
def fmSample : FileManager :=
  { header := hdrSample, points := [[1, 2], [3, 4]], cursor := 0,
    layoutDims := [strBytes "X", strBytes "Y", strBytes "Z", strBytes "intensity"],
    extraDimensions := [], dimValues := [], pointsWritten := false,
    streamOpen := true }

/-- A sample File instance opened in read mode over fmSample. -/
def stSample : FileState :=
  { filename := "a.las", mode := "r", fileManager := some fmSample,
    header := some hdrSample, atEnd := none }

/-- A sample File instance opened in the modify mode rw over fmSample. -/
def stSampleRW : FileState :=
  { filename := "b.las", mode := "rw", fileManager := some fmSample,
    header := some hdrSample, atEnd := none }

/-- A sample File instance whose close has already run. -/
def stAfterClose : FileState :=
  { filename := "a.las", mode := "r", fileManager := none,
    header := none, atEnd := none }

/-- An empty class dictionary. -/
def clsEmpty : ClassDict :=
  { props := [] }

/-- A sample extra dimension whose stored name carries a space, upper case
and NUL padding. -/
def dimExtra : ExtraDim :=
  { name := strBytes "Pulse Width" ++ [0] }

/-- A sample opened engine declaring one extra dimension. -/
def fmExtra : FileManager :=
  { fmSample with extraDimensions := [dimExtra] }

/-- The instance state File.init builds over fmExtra in read mode. -/
def stExtra : FileState :=
  { filename := "c.las", mode := "r", fileManager := some fmExtra,
    header := some fmExtra.header, atEnd := none }

theorem lowerByte_ne_zero (b : Nat) (hb : b ≠ 0) : lowerByte b ≠ 0 := by
  unfold lowerByte
  split_ifs with h
  · omega
  · exact hb

theorem normalize_cons_zero (bs : List Nat) :
    normalizeDimName (0 :: bs) = normalizeDimName bs := by
  unfold normalizeDimName
  simp [List.filter_cons]

theorem normalize_cons_ne (b : Nat) (bs : List Nat) (hb : b ≠ 0) :
    normalizeDimName (b :: bs)
      = lowerByte (spaceToUnderscore b) :: normalizeDimName bs := by
  unfold normalizeDimName
  rw [List.filter_cons, if_pos (by simpa using hb), List.map_cons, List.map_cons]

theorem normalize_lower (name : List Nat) :
    normalizeDimName (name.map lowerByte) = normalizeDimName name := by
  induction name with
  | nil => rfl
  | cons b bs ih =>
    rw [List.map_cons]
    by_cases hb : b = 0
    · subst hb
      rw [show lowerByte 0 = 0 from rfl, normalize_cons_zero, normalize_cons_zero]
      exact ih
    · have hb2 : lowerByte b ≠ 0 := lowerByte_ne_zero b hb
      rw [normalize_cons_ne (lowerByte b) _ hb2, normalize_cons_ne b _ hb, ih]
      congr 1
      by_cases h : 65 ≤ b ∧ b ≤ 90
      · have h1 : lowerByte b = b + 32 := by
          unfold lowerByte
          rw [if_pos h]
        have h2 : spaceToUnderscore (b + 32) = b + 32 := by
          unfold spaceToUnderscore
          rw [if_neg (by omega)]
        have h3 : spaceToUnderscore b = b := by
          unfold spaceToUnderscore
          rw [if_neg (by omega)]
        rw [h1, h2, h3, h1]
        unfold lowerByte
        rw [if_neg (by omega)]
      · have h1 : lowerByte b = b := by
          unfold lowerByte
          rw [if_neg h]
        rw [h1]

theorem mem_addExtraDimensions (dims : List ExtraDim) :
    ∀ (cls : ClassDict) (x : List Nat),
      (x ∈ cls.props ∨ ∃ d ∈ dims, x = normalizeDimName d.name) →
      x ∈ (File.addExtraDimensions cls dims).props := by
  induction dims with
  | nil =>
    intro cls x hx
    rcases hx with hx | ⟨d, hd, -⟩
    · exact hx
    · cases hd
  | cons e es ih =>
    intro cls x hx
    show x ∈ (File.addExtraDimensions
      (File.addProperty cls (normalizeDimName e.name)) es).props
    apply ih
    rcases hx with hx | ⟨d, hd, hxd⟩
    · exact Or.inl (List.mem_cons_of_mem _ hx)
    · rcases List.mem_cons.mp hd with rfl | hd2
      · exact Or.inl (hxd ▸ List.mem_cons_self _ _)
      · exact Or.inr ⟨d, hd2, hxd⟩

theorem iterLoop_step (fm : FileManager) :
    File.iterLoop fm =
      match FileManager.getNextPoint fm with
      | (some p, fm1) => (p :: (File.iterLoop fm1).1, (File.iterLoop fm1).2)
      | (none, fm1) => ([], fm1) := by
  unfold FileManager.getNextPoint FileManager.getPoint
  by_cases h : fm.cursor < fm.points.length
  · rw [File.iterLoop, dif_pos h, dif_pos h]
  · rw [File.iterLoop, dif_neg h, dif_neg h]

theorem iterLoop_spec (fm : FileManager) :
    File.iterLoop fm = (fm.points.drop fm.cursor,
      { fm with cursor := max fm.cursor fm.points.length }) := by
  have main : ∀ (n : Nat) (g : FileManager), g.points.length - g.cursor ≤ n →
      File.iterLoop g = (g.points.drop g.cursor,
        { g with cursor := max g.cursor g.points.length }) := by
    intro n
    induction n with
    | zero =>
      intro g hg
      have hle : g.points.length ≤ g.cursor := by omega
      rw [File.iterLoop, dif_neg (by omega), List.drop_eq_nil_of_le hle,
        Nat.max_eq_left hle]
    | succ n ih =>
      intro g hg
      by_cases hlt : g.cursor < g.points.length
      · rw [File.iterLoop, dif_pos hlt,
          ih { g with cursor := g.cursor + 1 } (by simp; omega)]
        have hmax : max (g.cursor + 1) g.points.length
            = max g.cursor g.points.length := by omega
        simp only []
        rw [hmax]
        have hdrop : g.points.drop g.cursor
            = g.points.get ⟨g.cursor, hlt⟩ :: g.points.drop (g.cursor + 1) := by
          simpa using List.drop_eq_getElem_cons hlt
        rw [hdrop]
      · have hle : g.points.length ≤ g.cursor := by omega
        rw [File.iterLoop, dif_neg hlt, List.drop_eq_nil_of_le hle,
          Nat.max_eq_left hle]
  exact main (fm.points.length - fm.cursor) fm (Nat.le_refl _)

theorem iterAll_read_mode (st : FileState) (fm : FileManager)
    (hm : st.mode = "r") (hfm : st.fileManager = some fm) :
    File.iterAll st = Except.ok (fm.points,
      { st with
        fileManager := none, header := none,
        atEnd := some (decide (0 < fm.points.length)) }) := by
  unfold File.iterAll
  rw [if_pos hm, hfm]
  by_cases h0 : 0 < fm.points.length
  · have hgp : FileManager.getPoint fm 0
        = (some (fm.points.get ⟨0, h0⟩), { fm with cursor := 0 + 1 }) := by
      unfold FileManager.getPoint
      rw [dif_pos h0]
    simp only [hgp, iterLoop_spec, File.close]
    have hcons : fm.points.get ⟨0, h0⟩ :: fm.points.drop (0 + 1)
        = fm.points := by
      simpa using (List.drop_eq_getElem_cons h0).symm
    simp only [hcons]
    simp [h0]
  · have hnil : fm.points = [] := by
      cases hp : fm.points with
      | nil => rfl
      | cons a l =>
        rw [hp] at h0
        simp at h0
    have hgp : FileManager.getPoint fm 0 = (none, fm) := by
      unfold FileManager.getPoint
      rw [dif_neg (by omega)]
    simp only [hgp, File.close]
    simp [hnil]

/-- C6: for every File opened in read mode, each mutating operation —
set_dimension, define_new_dimension, the X setter and the points setter —
fails at once with the domain-family mode error raised by
assert_write_mode, before the engine is invoked, and returns the state
unchanged. -/
theorem laspy_c6_read_mode_guard (st : FileState) (hm : st.mode = "r")
    (cls : ClassDict) (name : List Nat) (v : List Int)
    (ps : List PointRecord) :
    File.setDimension st name v
        = (some (PyError.laspyException "File is not opened in a write mode."), st)
    ∧ File.defineNewDimension cls st name
        = (some (PyError.laspyException "File is not opened in a write mode."), cls, st)
    ∧ File.setX st v
        = (some (PyError.laspyException "File is not opened in a write mode."), st)
    ∧ File.setPoints st ps
        = (some (PyError.laspyException "File is not opened in a write mode."), st)
    ∧ PyError.isDomain
        (PyError.laspyException "File is not opened in a write mode.") = true := by
  have ha : File.assertWriteMode st
      = some (PyError.laspyException "File is not opened in a write mode.") := by
    unfold File.assertWriteMode
    rw [if_pos hm]
  refine ⟨?_, ?_, ?_, ?_, rfl⟩
  · unfold File.setDimension
    rw [ha]
  · unfold File.defineNewDimension
    rw [ha]
  · unfold File.setX
    rw [ha]
  · unfold File.setPoints
    rw [ha]

/-- Concrete instantiation of laspy_c6_read_mode_guard on the sample
read-mode file. -/
theorem laspy_c6_witness :
    File.setDimension stSample (strBytes "intensity") [7]
        = (some (PyError.laspyException "File is not opened in a write mode."), stSample)
    ∧ File.defineNewDimension clsEmpty stSample (strBytes "intensity")
        = (some (PyError.laspyException "File is not opened in a write mode."),
            clsEmpty, stSample)
    ∧ File.setX stSample [7]
        = (some (PyError.laspyException "File is not opened in a write mode."), stSample)
    ∧ File.setPoints stSample [[9]]
        = (some (PyError.laspyException "File is not opened in a write mode."), stSample)
    ∧ PyError.isDomain
        (PyError.laspyException "File is not opened in a write mode.") = true :=
  laspy_c6_read_mode_guard stSample rfl clsEmpty (strBytes "intensity") [7] [[9]]

/-- C1: evaluating the constructor in write mode — File.__init__ raises
NotImplementedError (message lol) for every mode w call, whatever header is
supplied, instead of opening the file for writing as the claim and the
constructor docstring state. -/
theorem laspy_c1_write_mode_raises (cls : ClassDict) (fname : String)
    (hdr : Option Header) (fm : FileManager) :
    File.init cls fname "w" hdr fm
      = Except.error (PyError.notImplementedError "lol") := by
  unfold File.init
  rw [if_neg (by decide : ¬ ("w" : String) ∉ FILE_MODES), if_pos rfl]

/-- C5: evaluating the constructor on misused modes — an unsupported mode
string surfaces as AttributeError, because the LaspyException message
formats self._mode before that attribute is assigned, and the unimplemented
mode w surfaces as NotImplementedError; neither is in the domain error
family, contradicting the claim. -/
theorem laspy_c5_error_family (cls : ClassDict) (fname : String)
    (hdr : Option Header) (fm : FileManager) :
    (File.init cls fname "q" hdr fm
        = Except.error (PyError.attributeError "File object has no attribute _mode")
      ∧ PyError.isDomain
          (PyError.attributeError "File object has no attribute _mode") = false)
    ∧ (File.init cls fname "w" hdr fm
        = Except.error (PyError.notImplementedError "lol")
      ∧ PyError.isDomain (PyError.notImplementedError "lol") = false) := by
  refine ⟨⟨?_, rfl⟩, ?_, rfl⟩
  · unfold File.init
    rw [if_pos (by decide : ("q" : String) ∉ FILE_MODES)]
  · unfold File.init
    rw [if_neg (by decide : ¬ ("w" : String) ∉ FILE_MODES), if_pos rfl]

/-- C2 counterexample: on a concrete open file, a first close succeeds and a
second close raises AttributeError, refuting that a second close raises no
error. -/
theorem laspy_c2_counterexample :
    (File.close (File.close stSample).2).1
      = some (PyError.attributeError "NoneType object has no attribute close") := by
  rfl

/-- C2 (amended): once a File has been closed — its file_manager reference
is None — a second close() raises AttributeError on the None manager and
leaves the instance state unchanged; it is not a safe no-op. -/
theorem laspy_c2_second_close_raises (st : FileState)
    (h : st.fileManager = none) :
    File.close st
      = (some (PyError.attributeError "NoneType object has no attribute close"), st) := by
  unfold File.close
  rw [h]

/-- Concrete instantiation of laspy_c2_second_close_raises on the sample
already-closed file. -/
theorem laspy_c2_witness :
    File.close stAfterClose
      = (some (PyError.attributeError "NoneType object has no attribute close"),
          stAfterClose) :=
  laspy_c2_second_close_raises stAfterClose rfl

/-- C3: evaluating a full iteration of a read-mode file with two records —
the while-else clause of __iter__ invokes self.close() when the loop ends,
so after exhaustion the file manager reference is gone: the resource has
been released implicitly, without any caller-invoked close. -/
theorem laspy_c3_iterator_closes :
    File.iterAll stSample = Except.ok ([[1, 2], [3, 4]],
      { filename := "a.las", mode := "r", fileManager := none,
        header := none, atEnd := some true }) :=
  iterAll_read_mode stSample fmSample rfl rfl

/-- C4: evaluating read at the boundary of a file with two records — the
bound check get_pointrecordscount() of at least index admits index = 2, for
which read returns the engine end marker None and raises nothing, while
index 3 raises the domain error and index 1 returns the record; so the
domain index error is raised only for index strictly greater than the
count, not for every index at or past it. -/
theorem laspy_c4_off_by_one :
    File.read stSample 2 = Except.ok none
    ∧ File.read stSample 3
        = Except.error (PyError.laspyException "Index greater than point records count")
    ∧ File.read stSample 1 = Except.ok (some [3, 4]) :=
  ⟨rfl, rfl, rfl⟩

/-- C7: for every readable file, the sequential traversal of __iter__ — the
first point, then next-point advances — terminates without error and yields
exactly the records that read returns at indices 0 to the count minus one,
in order; and past the last record the next sequential advance returns the
end marker. -/
theorem laspy_c7_traversal_equiv (st : FileState) (fm : FileManager)
    (hm : st.mode = "r") (hfm : st.fileManager = some fm) :
    (∃ stf, File.iterAll st = Except.ok (fm.points, stf))
    ∧ (∀ i, ∀ h : i < fm.points.length,
        File.read st i = Except.ok (some (fm.points.get ⟨i, h⟩)))
    ∧ (FileManager.getNextPoint { fm with cursor := fm.points.length }).1
        = none := by
  refine ⟨⟨_, iterAll_read_mode st fm hm hfm⟩, ?_, ?_⟩
  · intro i h
    have hge : FileManager.getPointrecordscount fm ≥ i := Nat.le_of_lt h
    have hread : File.read st i
        = if FileManager.getPointrecordscount fm ≥ i then
            Except.ok (FileManager.getPoint fm i).1
          else
            Except.error (PyError.laspyException "Index greater than point records count") := by
      unfold File.read
      rw [hfm]
    rw [hread, if_pos hge]
    unfold FileManager.getPoint
    rw [dif_pos h]
  · unfold FileManager.getNextPoint FileManager.getPoint
    rw [dif_neg (by simp)]

/-- Concrete instantiation of laspy_c7_traversal_equiv on the sample file
with two records. -/
theorem laspy_c7_witness :
    (∃ stf, File.iterAll stSample = Except.ok ([[1, 2], [3, 4]], stf))
    ∧ File.read stSample 0 = Except.ok (some [1, 2])
    ∧ File.read stSample 1 = Except.ok (some [3, 4])
    ∧ (FileManager.getNextPoint
        { fmSample with cursor := fmSample.points.length }).1 = none :=
  ⟨(laspy_c7_traversal_equiv stSample fmSample rfl rfl).1,
    (laspy_c7_traversal_equiv stSample fmSample rfl rfl).2.1 0 (by decide),
    (laspy_c7_traversal_equiv stSample fmSample rfl rfl).2.1 1 (by decide),
    (laspy_c7_traversal_equiv stSample fmSample rfl rfl).2.2⟩

/-- C8 counterexample: at scale 0 the encode of the decode of raw value 1
yields 0, not 1, so the round trip fails when the scale is allowed to be
any value. -/
theorem laspy_c8_counterexample :
    encodeScaled (decodeScaled 1 0 0) 0 0 ≠ 1 := by
  unfold encodeScaled decodeScaled
  norm_num

/-- C8 (amended): for every raw integer r, offset o and nonzero scale s,
the scaled accessor returns r * s + o exactly, and encoding that scaled
value back recovers r exactly, with no drift. -/
theorem laspy_c8_scaled_roundtrip (r : ℤ) (s o : ℚ) (hs : s ≠ 0) :
    decodeScaled r s o = r * s + o
    ∧ encodeScaled (decodeScaled r s o) s o = r := by
  refine ⟨rfl, ?_⟩
  unfold encodeScaled decodeScaled
  rw [add_sub_cancel_right, mul_div_assoc, div_self hs, mul_one]
  exact round_intCast r

/-- Concrete instantiation of laspy_c8_scaled_roundtrip at raw value 7,
scale one hundredth and offset 5. -/
theorem laspy_c8_witness :
    decodeScaled 7 (1 / 100) 5 = 7 * (1 / 100) + 5
    ∧ encodeScaled (decodeScaled 7 (1 / 100) 5) (1 / 100) 5 = 7 :=
  laspy_c8_scaled_roundtrip 7 (1 / 100) 5 (by norm_num)

/-- C9: define_new_dimension installs the accessor by setattr on the File
class object, so after one successful call on one instance, attribute
lookup on every File instance whatsoever — whenever and on whatever file it
was opened — resolves that name to the class property rather than raising
AttributeError. -/
theorem laspy_c9_class_level (cls clsB : ClassDict) (st stB : FileState)
    (name : List Nat)
    (h : File.defineNewDimension cls st name = (none, clsB, stB))
    (st2 : FileState) :
    File.getattr clsB st2 name = Except.ok (AttrHit.prop name) := by
  unfold File.defineNewDimension at h
  split at h
  · simp at h
  · split at h
    · simp at h
    · split at h
      · simp only [Prod.mk.injEq] at h
        obtain ⟨-, h2, -⟩ := h
        subst h2
        unfold File.getattr File.addProperty
        rw [if_pos (List.mem_cons_self _ _)]
      · simp at h

/-- Concrete instantiation of laspy_c9_class_level: a dimension defined on
the rw-mode sample instance resolves on the earlier read-mode sample
instance. -/
theorem laspy_c9_witness :
    File.getattr
        (File.defineNewDimension clsEmpty stSampleRW (strBytes "temperature")).2.1
        stSample (strBytes "temperature")
      = Except.ok (AttrHit.prop (strBytes "temperature")) :=
  laspy_c9_class_level clsEmpty
    (File.defineNewDimension clsEmpty stSampleRW (strBytes "temperature")).2.1
    stSampleRW
    (File.defineNewDimension clsEmpty stSampleRW (strBytes "temperature")).2.2
    (strBytes "temperature") rfl stSample

/-- C10: when opening succeeds, every extra dimension declared in the file
schema is exposed as a class property under its normalized name — NUL bytes
removed, spaces replaced by underscores, lower-cased — on every instance;
and the normalized name depends only on the case-folded stored name, so two
stored names equal up to ASCII case resolve to the same attribute. -/
theorem laspy_c10_extra_dims (cls clsB : ClassDict) (fname mode : String)
    (hdr : Option Header) (fm : FileManager) (st : FileState)
    (hinit : File.init cls fname mode hdr fm = Except.ok (clsB, st))
    (d : ExtraDim) (hd : d ∈ fm.extraDimensions) :
    (∀ st2, File.getattr clsB st2 (normalizeDimName d.name)
        = Except.ok (AttrHit.prop (normalizeDimName d.name)))
    ∧ (∀ other : List Nat, other.map lowerByte = d.name.map lowerByte →
        normalizeDimName other = normalizeDimName d.name) := by
  constructor
  · intro st2
    unfold File.init at hinit
    split_ifs at hinit with h1 h2
    · simp only [Except.ok.injEq, Prod.mk.injEq] at hinit
      obtain ⟨hcls, -⟩ := hinit
      subst hcls
      unfold File.getattr
      rw [if_pos (mem_addExtraDimensions fm.extraDimensions cls _
        (Or.inr ⟨d, hd, rfl⟩))]
  · intro other hother
    calc normalizeDimName other
        = normalizeDimName (other.map lowerByte) := (normalize_lower other).symm
      _ = normalizeDimName (d.name.map lowerByte) := by rw [hother]
      _ = normalizeDimName d.name := normalize_lower d.name

/-- Concrete instantiation of laspy_c10_extra_dims: opening the sample file
with the Pulse Width extra dimension exposes the pulse_width attribute on
an unrelated instance, and an all-caps spelling of the stored name
normalizes identically. -/
theorem laspy_c10_witness :
    File.getattr (File.addExtraDimensions clsEmpty fmExtra.extraDimensions)
        stSample (strBytes "pulse_width")
      = Except.ok (AttrHit.prop (strBytes "pulse_width"))
    ∧ normalizeDimName (strBytes "PULSE WIDTH" ++ [0])
        = normalizeDimName dimExtra.name :=
  ⟨(laspy_c10_extra_dims clsEmpty
      (File.addExtraDimensions clsEmpty fmExtra.extraDimensions)
      "c.las" "r" none fmExtra stExtra rfl dimExtra
      (List.mem_singleton_self _)).1 stSample,
    (laspy_c10_extra_dims clsEmpty
      (File.addExtraDimensions clsEmpty fmExtra.extraDimensions)
      "c.las" "r" none fmExtra stExtra rfl dimExtra
      (List.mem_singleton_self _)).2 (strBytes "PULSE WIDTH" ++ [0]) (by decide)⟩

end Laspy
